import Mathlib

/-!
# sports-league: the catalog filter, the sport selector options and the two fetchers

A shallow embedding of the logic of `src/App.jsx` (the `App` component):

* JavaScript strings are sequences of UTF-16 code units, so `JSString` is `List Nat`;
  `includes`, `===` and the default `sort` comparison all work on code units.
* `String.prototype.toLowerCase` is a built-in of the host, not of the repository.  Every
  definition that calls it takes it as the parameter `toLowerCase`; theorems hold for every
  such function (where needed under the fact `toLowerCase "" = ""`, true of the built-in).
  `asciiToLowerCase` is a concrete instance used to evaluate examples.
* React state is the record `AppState`; every `setX` call is a record update.  The functions
  are run one after the other (a call finishes before the next starts), so the `cache`
  captured by a closure is the cache of the state the call starts from.
* The network is an input: each fetcher takes the `FetchOutcome` the network would give if
  asked, and returns the new state together with the log of requests it really sent.
* League records carry string `strLeague` / `strSport`; response bodies are JSON objects whose
  `leagues` / `seasons` field is an array or is missing/null.  League ids are not names of
  `Object.prototype` members.
-/

namespace SportsLeague

/-! ## Strings -/

/-- A JavaScript string: its UTF-16 code units. -/
abbrev JSString := List Nat

/-- The code units of a literal (all literals used here are ASCII). -/
def str (s : String) : JSString := s.toList.map Char.toNat

/-- Truthiness of a string value: `if (s)` holds iff `s` is not the empty string. -/
def strTruthy (s : JSString) : Bool := !s.isEmpty

/-- The call `s.includes(t)`: whether `t` occurs in `s` as a contiguous run of code units. -/
def includes : JSString → JSString → Bool
  | [], t => t.isEmpty
  | c :: cs, t => t.isPrefixOf (c :: cs) || includes cs t

/-- Lower-casing of one ASCII code unit (`A`..`Z` to `a`..`z`), other units unchanged. -/
def asciiLowerUnit (c : Nat) : Nat := if 65 ≤ c ∧ c ≤ 90 then c + 32 else c

/-- A concrete lower-casing, equal to the built-in on strings of ASCII code units. -/
def asciiToLowerCase (s : JSString) : JSString := s.map asciiLowerUnit

/-! ## Data model -/

/-- A league record of the catalog endpoint (the fields the component reads). -/
structure League where
  idLeague : JSString
  strLeague : JSString
  strSport : JSString
  strLeagueAlternate : Option JSString
  deriving DecidableEq, Repr

/-! ## The filter effect (`App.jsx` lines 61-78) -/

/-- The body of the filter effect, as a function of `leagues`, `searchTerm` and
`selectedSport`: the value passed to `setFilteredLeagues`. -/
def filterLeagues (toLowerCase : JSString → JSString)
    (leagues : List League) (searchTerm selectedSport : JSString) : List League :=
  let filtered := leagues
  let filtered :=
    if strTruthy searchTerm then
      filtered.filter (fun league =>
        includes (toLowerCase league.strLeague) (toLowerCase searchTerm) ||
        includes (toLowerCase league.strSport) (toLowerCase searchTerm))
    else filtered
  let filtered :=
    if selectedSport ≠ str "all" then
      filtered.filter (fun league =>
        decide (toLowerCase league.strSport = toLowerCase selectedSport))
    else filtered
  filtered

/-- League 1 of the spec's example. -/
def premierLeague : League :=
  { idLeague := str "1", strLeague := str "Premier League", strSport := str "Soccer",
    strLeagueAlternate := none }

/-- League 2 of the spec's example. -/
def nba : League :=
  { idLeague := str "2", strLeague := str "NBA", strSport := str "Basketball",
    strLeagueAlternate := none }

/-- The two-league catalog of the spec's example. -/
def exampleCatalog : List League := [premierLeague, nba]

/-! ## `uniqueSports` (`App.jsx` line 81) -/

/-- The method `Set.prototype.add` on the insertion-ordered element list of a set. -/
def setAdd (elems : List JSString) (x : JSString) : List JSString :=
  if x ∈ elems then elems else elems ++ [x]

/-- The elements of `new Set(xs)` in iteration (first insertion) order, i.e. `[...new Set(xs)]`. -/
def newSet (xs : List JSString) : List JSString := xs.foldl setAdd []

/-- The string case of the abstract relational comparison `x < y`: code-unit-wise, a proper
prefix being smaller. -/
def isLessThan : JSString → JSString → Bool
  | [], [] => false
  | [], _ :: _ => true
  | _ :: _, [] => false
  | a :: as, b :: bs =>
    if a < b then true else if b < a then false else isLessThan as bs

/-- The default comparator of `Array.prototype.sort` (SortCompare) on two strings. -/
def sortCompare (x y : JSString) : Int :=
  if isLessThan x y then -1 else if isLessThan y x then 1 else 0

/-- The array `xs.sort()` for an array of strings: `x` stays before `y` when
`sortCompare x y ≤ 0`.  The engine's algorithm is not observable for this comparator. -/
def jsSort (xs : List JSString) : List JSString :=
  xs.insertionSort (fun x y => sortCompare x y ≤ 0)

/-- The selector options: `[...new Set(leagues.map(league => league.strSport))].sort()`. -/
def uniqueSports (leagues : List League) : List JSString :=
  jsSort (newSet (leagues.map (fun league => league.strSport)))

/-! ## Component state and the network -/

/-- A value stored as a badge: `null` (`none`) or a string. -/
abbrev BadgeValue := Option JSString

/-- The `cache` state: `leagues` is `null` or an array; `badges[id]` is `undefined` (`none`),
or a stored badge value. -/
structure Cache where
  leagues : Option (List League)
  badges : JSString → Option BadgeValue

/-- Truthiness of `cache.badges[leagueId]`: only a non-empty string is truthy. -/
def badgeTruthy : Option BadgeValue → Bool
  | some (some url) => strTruthy url
  | _ => false

/-- The object `{ ...badges, [leagueId]: badgeUrl }`. -/
def setBadge (badges : JSString → Option BadgeValue) (leagueId : JSString)
    (badgeUrl : BadgeValue) : JSString → Option BadgeValue :=
  fun k => if k = leagueId then some badgeUrl else badges k

/-- The `useState` cells of `App`. -/
structure AppState where
  leagues : List League
  filteredLeagues : List League
  loading : Bool
  error : Option JSString
  searchTerm : JSString
  selectedSport : JSString
  selectedLeague : Option League
  badgeImage : BadgeValue
  badgeLoading : Bool
  cache : Cache

/-- The initial values given to `useState` (lines 11-25). -/
def initialState : AppState :=
  { leagues := [], filteredLeagues := [], loading := true, error := none,
    searchTerm := str "", selectedSport := str "all", selectedLeague := none,
    badgeImage := none, badgeLoading := false,
    cache := { leagues := none, badges := fun _ => none } }

/-- What `await fetch(url)` followed by `await response.json()` can give: the fetch promise
rejects (network error, with the error's message), or a response arrives with its `ok` flag
and a body that either fails to parse (with the error's message) or parses to `β`. -/
inductive FetchOutcome (β : Type) where
  | rejected (message : JSString)
  | responded (ok : Bool) (body : Except JSString β)

/-- A request sent to the network. -/
inductive Request where
  | allLeagues
  | searchAllSeasons (leagueId : JSString)
  deriving DecidableEq, Repr

/-- The result of running an async function to completion. -/
structure Run where
  state : AppState
  requests : List Request

/-- The filter effect on the state: `setFilteredLeagues(filtered)`. -/
def filterEffect (toLowerCase : JSString → JSString) (st : AppState) : AppState :=
  { st with filteredLeagues := filterLeagues toLowerCase st.leagues st.searchTerm st.selectedSport }

/-- The `onClick` of the Clear Filters button (lines 196-199). -/
def clearFilters (st : AppState) : AppState :=
  { st with searchTerm := str "", selectedSport := str "all" }

/-! ## `fetchLeagues` (`App.jsx` lines 29-55) -/

/-- The parsed body of the catalog endpoint: `leagues` is an array, or missing/null. -/
structure CatalogBody where
  leagues : Option (List League)

/-- The `try` block of `fetchLeagues` after the cache check: `inl message` when it throws. -/
def fetchLeaguesTry (st : AppState) (net : FetchOutcome CatalogBody) : JSString ⊕ AppState :=
  match net with
  | .rejected message => .inl message
  | .responded false _ => .inl (str "Failed to fetch leagues")
  | .responded true (.error message) => .inl message
  | .responded true (.ok data) =>
    match data.leagues with
    | some leagues =>
      .inr { st with leagues := leagues, filteredLeagues := leagues,
                     cache := { st.cache with leagues := some leagues } }
    | none => .inr st

/-- One run of `fetchLeagues` from state `st`, the network answering `net` if asked. -/
def fetchLeagues (st : AppState) (net : FetchOutcome CatalogBody) : Run :=
  match st.cache.leagues with
  | some cached =>
    { state := { st with leagues := cached, filteredLeagues := cached, loading := false },
      requests := [] }
  | none =>
    match fetchLeaguesTry st net with
    | .inl message =>
      { state := { st with error := some message, loading := false },
        requests := [Request.allLeagues] }
    | .inr st1 =>
      { state := { st1 with loading := false }, requests := [Request.allLeagues] }

/-! ## `fetchBadgeImage` (`App.jsx` lines 84-119) -/

/-- A season record of the badge endpoint: `strBadge` is a string or missing/null. -/
structure Season where
  strSeason : JSString
  strBadge : Option JSString
  deriving DecidableEq, Repr

/-- The parsed body of the badge endpoint: `seasons` is an array, or missing/null. -/
structure BadgeBody where
  seasons : Option (List Season)

/-- Truthiness of `season.strBadge`. -/
def seasonHasBadge (season : Season) : Bool :=
  match season.strBadge with
  | some url => strTruthy url
  | none => false

/-- Lines 101-106: the `badgeUrl` computed from the parsed body. -/
def selectBadgeUrl (data : BadgeBody) : BadgeValue :=
  match data.seasons with
  | some seasons =>
    if seasons.length > 0 then
      match seasons.find? seasonHasBadge with
      | some seasonWithBadge => seasonWithBadge.strBadge
      | none => none
    else none
  | none => none

/-- The `try` block of `fetchBadgeImage` after the cache check: `none` when it throws. -/
def fetchBadgeTry (st : AppState) (leagueId : JSString) (net : FetchOutcome BadgeBody) :
    Option AppState :=
  match net with
  | .rejected _ => none
  | .responded false _ => none
  | .responded true (.error _) => none
  | .responded true (.ok data) =>
    let badgeUrl := selectBadgeUrl data
    some { st with badgeImage := badgeUrl,
                   cache := { st.cache with badges := setBadge st.cache.badges leagueId badgeUrl } }

/-- One run of `fetchBadgeImage(leagueId)` from state `st`, the network answering `net` if
asked. -/
def fetchBadgeImage (st : AppState) (leagueId : JSString) (net : FetchOutcome BadgeBody) : Run :=
  let st0 := { st with badgeLoading := true }
  if badgeTruthy (st.cache.badges leagueId) then
    { state := { st0 with badgeImage := (st.cache.badges leagueId).join, badgeLoading := false },
      requests := [] }
  else
    match fetchBadgeTry st0 leagueId net with
    | some st1 =>
      { state := { st1 with badgeLoading := false },
        requests := [Request.searchAllSeasons leagueId] }
    | none =>
      { state := { st0 with badgeImage := none, badgeLoading := false },
        requests := [Request.searchAllSeasons leagueId] }

/-- The handler `handleLeagueClick` (lines 121-127); the badge fetch runs to completion. -/
def handleLeagueClick (st : AppState) (league : League) (net : FetchOutcome BadgeBody) : Run :=
  let st1 := { st with selectedLeague := some league, badgeImage := none }
  if strTruthy league.idLeague then fetchBadgeImage st1 league.idLeague net
  else { state := st1, requests := [] }

/-- The handler `clearSelection` (lines 129-132). -/
def clearSelection (st : AppState) : AppState :=
  { st with selectedLeague := none, badgeImage := none }


/-! ## Vocabulary of the statements -/

/-- The request failed: a network error, or a response whose `ok` flag is false (non-2xx). -/
def FetchOutcome.requestFailed {β : Type} : FetchOutcome β → Bool
  | .rejected _ => true
  | .responded ok _ => !ok

/-- A season record carries no badge: `strBadge` is missing/null or the empty string. -/
def Season.noBadge (season : Season) : Prop :=
  season.strBadge = none ∨ season.strBadge = some []

instance (season : Season) : Decidable season.noBadge := by
  unfold Season.noBadge
  infer_instance

/-- The id used in the examples. -/
def exampleId : JSString := str "4328"

/-- The badge response of the spec's example: seasons `[{strBadge:null},{strBadge:"url2"}]`. -/
def exampleBadgeBody : BadgeBody :=
  { seasons := some [ { strSeason := str "2001", strBadge := none },
                      { strSeason := str "2002", strBadge := some (str "url2") } ] }

/-- A successful badge response in which no season carries a badge. -/
def foundNone : FetchOutcome BadgeBody := .responded true (.ok { seasons := some [] })

/-- A badge request that fails with a network error. -/
def offline : FetchOutcome BadgeBody := .rejected (str "Failed to fetch")

/-- A successful catalog response whose JSON object has no `leagues` field. -/
def noLeaguesField : FetchOutcome CatalogBody := .responded true (.ok { leagues := none })

/-! ## Helper lemmas -/

theorem includes_iff_infix (s t : JSString) : includes s t = true ↔ t <:+: s := by
  induction s with
  | nil => cases t <;> simp [includes]
  | cons c cs ih =>
    rw [includes, Bool.or_eq_true, ih, List.isPrefixOf_iff_prefix, List.infix_cons_iff]

theorem strTruthy_iff (s : JSString) : strTruthy s = true ↔ s ≠ [] := by
  cases s <;> simp [strTruthy]

theorem mem_filterLeagues (toLowerCase : JSString → JSString) (C : List League)
    (t s : JSString) (L : League) :
    L ∈ filterLeagues toLowerCase C t s ↔
      L ∈ C ∧
      (t = [] ∨ toLowerCase t <:+: toLowerCase L.strLeague ∨
        toLowerCase t <:+: toLowerCase L.strSport) ∧
      (s = str "all" ∨ toLowerCase L.strSport = toLowerCase s) := by
  unfold filterLeagues
  by_cases ht : t = [] <;> by_cases hs : s = str "all" <;>
    (simp [ht, hs, strTruthy_iff, includes_iff_infix, List.mem_filter, and_assoc]; try tauto)

theorem filter_pair_twice {α : Type} (p q : α → Bool) (l : List α) :
    (((l.filter p).filter q).filter p).filter q = (l.filter p).filter q := by
  simp only [List.filter_filter]
  apply List.filter_congr
  intro a _
  cases p a <;> cases q a <;> rfl

theorem foldl_setAdd (xs : List JSString) :
    ∀ acc : List JSString, acc.Nodup →
      (xs.foldl setAdd acc).Nodup ∧ ∀ x, x ∈ xs.foldl setAdd acc ↔ x ∈ acc ∨ x ∈ xs := by
  induction xs with
  | nil => intro acc h; simp [h]
  | cons y ys ih =>
    intro acc h
    have hstep : (setAdd acc y).Nodup ∧ ∀ x, x ∈ setAdd acc y ↔ x ∈ acc ∨ x = y := by
      unfold setAdd
      by_cases hy : y ∈ acc
      · simp only [hy, if_true]
        refine ⟨h, fun x => ⟨Or.inl, ?_⟩⟩
        rintro (hx | hx)
        · exact hx
        · exact hx ▸ hy
      · simp only [hy, if_false]
        refine ⟨?_, fun x => by simp⟩
        rw [List.nodup_append]
        refine ⟨h, List.nodup_singleton y, ?_⟩
        intro a ha hay
        rw [List.mem_singleton] at hay
        exact hy (hay ▸ ha)
    obtain ⟨h1, h2⟩ := ih (setAdd acc y) hstep.1
    refine ⟨h1, fun x => ?_⟩
    rw [List.foldl_cons, h2, hstep.2, List.mem_cons, or_assoc]

theorem newSet_spec (xs : List JSString) :
    (newSet xs).Nodup ∧ ∀ x, x ∈ newSet xs ↔ x ∈ xs := by
  obtain ⟨h1, h2⟩ := foldl_setAdd xs [] List.nodup_nil
  exact ⟨h1, fun x => by rw [newSet, h2]; simp⟩

theorem isLessThan_iff_lex (x y : JSString) :
    isLessThan x y = true ↔ List.Lex (· < ·) x y := by
  induction x generalizing y with
  | nil => cases y <;> simp [isLessThan, List.Lex.nil]
  | cons a as ih =>
    cases y with
    | nil => simp [isLessThan]
    | cons b bs =>
      rw [isLessThan]
      rcases Nat.lt_trichotomy a b with hab | hab | hab
      · simp only [hab, if_true, true_iff]
        exact List.Lex.rel hab
      · subst hab
        simp only [lt_self_iff_false, if_false, ih]
        exact List.Lex.cons_iff.symm
      · have hn : ¬ a < b := Nat.lt_asymm hab
        simp only [hn, hab, if_false, if_true, Bool.false_eq_true, false_iff]
        intro h
        cases h with
        | cons h => exact absurd hab (Nat.lt_irrefl _)
        | rel h => exact hn h

theorem sortCompare_le_iff (x y : JSString) : sortCompare x y ≤ 0 ↔ x ≤ y := by
  have hxy : isLessThan x y = true ↔ x < y := isLessThan_iff_lex x y
  have hyx : isLessThan y x = true ↔ y < x := isLessThan_iff_lex y x
  unfold sortCompare
  by_cases h1 : isLessThan x y = true
  · simp only [h1, if_true]
    exact ⟨fun _ => le_of_lt (hxy.mp h1), fun _ => by decide⟩
  · by_cases h2 : isLessThan y x = true
    · simp only [h1, h2, if_true, if_false]
      exact ⟨fun h => absurd h (by decide), fun h => absurd (hyx.mp h2) (not_lt.mpr h)⟩
    · simp only [h1, h2, if_false]
      exact ⟨fun _ => not_lt.mp (fun h => h2 (hyx.mpr h)), fun _ => le_refl _⟩

theorem jsSort_sorted (xs : List JSString) : List.Sorted (· ≤ ·) (jsSort xs) := by
  haveI : IsTotal JSString (fun x y => sortCompare x y ≤ 0) :=
    ⟨fun a b => by simp only [sortCompare_le_iff]; exact le_total a b⟩
  haveI : IsTrans JSString (fun x y => sortCompare x y ≤ 0) :=
    ⟨fun a b c => by simp only [sortCompare_le_iff]; exact le_trans⟩
  have h := List.sorted_insertionSort (fun x y => sortCompare x y ≤ 0) xs
  exact List.Pairwise.imp (fun hab => (sortCompare_le_iff _ _).mp hab) h

theorem jsSort_perm (xs : List JSString) : List.Perm (jsSort xs) xs :=
  List.perm_insertionSort _ xs

theorem seasonHasBadge_false_iff (season : Season) :
    seasonHasBadge season = false ↔ season.noBadge := by
  unfold seasonHasBadge Season.noBadge
  cases h : season.strBadge with
  | none => simp
  | some url => cases url <;> simp [strTruthy]

theorem find_seasonHasBadge_first (pre post : List Season) (season : Season)
    (hpre : ∀ y ∈ pre, y.noBadge) (hs : seasonHasBadge season = true) :
    (pre ++ season :: post).find? seasonHasBadge = some season := by
  induction pre with
  | nil => simp [List.find?, hs]
  | cons y ys ih =>
    have hy : seasonHasBadge y = false :=
      (seasonHasBadge_false_iff y).mpr (hpre y (List.mem_cons_self y ys))
    rw [List.cons_append, List.find?_cons, hy]
    exact ih (fun z hz => hpre z (List.mem_cons_of_mem y hz))

theorem find_seasonHasBadge_none (seasons : List Season) (h : ∀ y ∈ seasons, y.noBadge) :
    seasons.find? seasonHasBadge = none := by
  rw [List.find?_eq_none]
  intro y hy
  rw [(seasonHasBadge_false_iff y).mpr (h y hy)]
  decide

theorem selectBadgeUrl_truthy (data : BadgeBody) (url : JSString)
    (h : selectBadgeUrl data = some url) : url ≠ [] := by
  unfold selectBadgeUrl at h
  cases hs : data.seasons with
  | none => simp [hs] at h
  | some seasons =>
    simp only [hs] at h
    split at h
    · cases hf : seasons.find? seasonHasBadge with
      | none => simp [hf] at h
      | some found =>
        simp only [hf] at h
        have hb : seasonHasBadge found = true := List.find?_some hf
        unfold seasonHasBadge at hb
        rw [h] at hb
        exact (strTruthy_iff url).mp hb
    · simp at h

theorem fetchBadgeImage_hit (st : AppState) (leagueId : JSString) (net : FetchOutcome BadgeBody)
    (h : badgeTruthy (st.cache.badges leagueId) = true) :
    fetchBadgeImage st leagueId net =
      { state := { st with badgeImage := (st.cache.badges leagueId).join, badgeLoading := false },
        requests := [] } := by
  simp [fetchBadgeImage, h]

theorem fetchBadgeImage_failed (st : AppState) (leagueId : JSString)
    (net : FetchOutcome BadgeBody)
    (h : badgeTruthy (st.cache.badges leagueId) = false) (hf : net.requestFailed = true) :
    fetchBadgeImage st leagueId net =
      { state := { st with badgeImage := none, badgeLoading := false },
        requests := [Request.searchAllSeasons leagueId] } := by
  cases net with
  | rejected message => simp [fetchBadgeImage, h, fetchBadgeTry]
  | responded ok body =>
    cases ok with
    | false => simp [fetchBadgeImage, h, fetchBadgeTry]
    | true => simp [FetchOutcome.requestFailed] at hf

theorem fetchBadgeImage_ok (st : AppState) (leagueId : JSString) (data : BadgeBody)
    (h : badgeTruthy (st.cache.badges leagueId) = false) :
    fetchBadgeImage st leagueId (.responded true (.ok data)) =
      { state := { st with
          badgeImage := selectBadgeUrl data, badgeLoading := false,
          cache := { st.cache with
            badges := setBadge st.cache.badges leagueId (selectBadgeUrl data) } },
        requests := [Request.searchAllSeasons leagueId] } := by
  simp [fetchBadgeImage, h, fetchBadgeTry]

theorem badgeTruthy_url (url : JSString) (h : url ≠ []) :
    badgeTruthy (some (some url)) = true := by
  cases url with
  | nil => exact absurd rfl h
  | cons c cs => rfl

/-! ## Theorems about the filter -/

/-- C1: a league of the catalog is in the filtered list iff the lower-cased term is a
substring of its lower-cased name or sport, and the sport selector is `"all"` or equals its
sport up to case. -/
theorem filterLeagues_mem_iff (toLowerCase : JSString → JSString)
    (hempty : toLowerCase [] = [])
    (C : List League) (t s : JSString) (L : League) :
    L ∈ filterLeagues toLowerCase C t s ↔
      L ∈ C ∧
      (toLowerCase t <:+: toLowerCase L.strLeague ∨
        toLowerCase t <:+: toLowerCase L.strSport) ∧
      (s = str "all" ∨ toLowerCase L.strSport = toLowerCase s) := by
  rw [mem_filterLeagues]
  constructor
  · rintro ⟨hC, ht, hs⟩
    refine ⟨hC, ?_, hs⟩
    rcases ht with ht | ht
    · subst ht
      rw [hempty]
      exact Or.inl List.nil_infix
    · exact ht
  · rintro ⟨hC, ht, hs⟩
    exact ⟨hC, Or.inr ht, hs⟩

/-- C1 on the spec's example catalog, with the ASCII lower-casing: term "nba" gives
league 2, sport "Soccer" gives league 1, term "league" with sport "Basketball" gives nothing. -/
theorem filterLeagues_mem_iff_witness :
    asciiToLowerCase [] = [] ∧
    (nba ∈ filterLeagues asciiToLowerCase exampleCatalog (str "nba") (str "all") ↔
      nba ∈ exampleCatalog ∧
      (asciiToLowerCase (str "nba") <:+: asciiToLowerCase nba.strLeague ∨
        asciiToLowerCase (str "nba") <:+: asciiToLowerCase nba.strSport) ∧
      (str "all" = str "all" ∨ asciiToLowerCase nba.strSport = asciiToLowerCase (str "all"))) ∧
    filterLeagues asciiToLowerCase exampleCatalog (str "nba") (str "all") = [nba] ∧
    filterLeagues asciiToLowerCase exampleCatalog (str "") (str "Soccer") = [premierLeague] ∧
    filterLeagues asciiToLowerCase exampleCatalog (str "league") (str "Basketball") = [] :=
  ⟨rfl, filterLeagues_mem_iff asciiToLowerCase rfl exampleCatalog (str "nba") (str "all") nba,
   by decide, by decide, by decide⟩

/-- C2: the filtered list is a subsequence of the catalog (same leagues, no more often, same
relative order). -/
theorem filterLeagues_sublist (toLowerCase : JSString → JSString)
    (C : List League) (t s : JSString) :
    List.Sublist (filterLeagues toLowerCase C t s) C := by
  unfold filterLeagues
  by_cases ht : strTruthy t = true <;> by_cases hs : s = str "all"
  · simp [ht, hs]
  · simp only [ht, hs, if_true, ne_eq, not_false_eq_true]
    exact (List.filter_sublist _).trans (List.filter_sublist _)
  · simp [ht, hs]
  · simp only [ht, hs, if_false, if_true, ne_eq, not_false_eq_true, Bool.false_eq_true]
    exact List.filter_sublist _

/-- C5: filtering an already filtered list with the same criteria returns it unchanged. -/
theorem filterLeagues_idempotent (toLowerCase : JSString → JSString)
    (C : List League) (t s : JSString) :
    filterLeagues toLowerCase (filterLeagues toLowerCase C t s) t s
      = filterLeagues toLowerCase C t s := by
  unfold filterLeagues
  by_cases ht : strTruthy t = true <;> by_cases hs : s = str "all"
  · simp [ht, hs]
  · simp only [ht, hs, if_true, ne_eq, not_false_eq_true]
    exact filter_pair_twice _ _ C
  · simp [ht, hs]
  · simp [ht, hs]

/-- C6: with the empty search term and the selector `"all"` the filter returns the catalog
itself; this is the state the Clear Filters button leads to. -/
theorem filterLeagues_empty_all (toLowerCase : JSString → JSString) :
    (∀ C : List League, filterLeagues toLowerCase C (str "") (str "all") = C) ∧
    (∀ st : AppState,
      (filterEffect toLowerCase (clearFilters st)).filteredLeagues = st.leagues) := by
  have h : ∀ C : List League, filterLeagues toLowerCase C (str "") (str "all") = C := by
    intro C
    simp [filterLeagues, strTruthy, str]
  exact ⟨h, fun st => h st.leagues⟩

/-! ## Theorems about the selector options -/

/-- C7: `uniqueSports` is strictly ascending in the lexicographic order of code units (so
sorted and free of duplicates) and holds exactly the sport names of the catalog's leagues. -/
theorem uniqueSports_spec (C : List League) :
    List.Sorted (List.Lex (· < ·)) (uniqueSports C) ∧
    (uniqueSports C).Nodup ∧
    ∀ sport : JSString, sport ∈ uniqueSports C ↔ ∃ L ∈ C, L.strSport = sport := by
  obtain ⟨hnd, hmem⟩ := newSet_spec (C.map (fun league => league.strSport))
  have hperm := jsSort_perm (newSet (C.map (fun league => league.strSport)))
  have hnodup : (uniqueSports C).Nodup := hperm.nodup_iff.mpr hnd
  refine ⟨?_, hnodup, fun sport => ?_⟩
  · exact (jsSort_sorted _).lt_of_le hnodup
  · unfold uniqueSports
    rw [hperm.mem_iff, hmem, List.mem_map]

/-! ## Theorems about `fetchLeagues` -/

/-- C8: from the initial state, a catalog request that fails with a network error or a
non-success response sets `error` to the failure message, clears `loading`, leaves the
catalog, the filtered list and the cached catalog empty, and the filter then yields the empty
list for every search term and sport selector. -/
theorem fetchLeagues_failure :
    (∀ message : JSString,
      (fetchLeagues initialState (.rejected message)).state.error = some message) ∧
    (∀ body : Except JSString CatalogBody,
      (fetchLeagues initialState (.responded false body)).state.error
        = some (str "Failed to fetch leagues")) ∧
    (∀ net : FetchOutcome CatalogBody, net.requestFailed = true →
      (fetchLeagues initialState net).state.loading = false ∧
      (fetchLeagues initialState net).state.leagues = [] ∧
      (fetchLeagues initialState net).state.filteredLeagues = [] ∧
      (fetchLeagues initialState net).state.cache.leagues = none ∧
      (fetchLeagues initialState net).requests = [Request.allLeagues] ∧
      ∀ (toLowerCase : JSString → JSString) (t s : JSString),
        filterLeagues toLowerCase (fetchLeagues initialState net).state.leagues t s = [] ∧
        (filterEffect toLowerCase
          { (fetchLeagues initialState net).state with
            searchTerm := t, selectedSport := s }).filteredLeagues = []) := by
  have hnil : ∀ (toLowerCase : JSString → JSString) (t s : JSString),
      filterLeagues toLowerCase [] t s = [] := by
    intro toLowerCase t s
    simp [filterLeagues]
  refine ⟨fun message => rfl, fun body => rfl, ?_⟩
  intro net hf
  cases net with
  | rejected message =>
    exact ⟨rfl, rfl, rfl, rfl, rfl, fun lower t s => ⟨hnil lower t s, hnil lower t s⟩⟩
  | responded ok body =>
    cases ok with
    | false =>
      exact ⟨rfl, rfl, rfl, rfl, rfl, fun lower t s => ⟨hnil lower t s, hnil lower t s⟩⟩
    | true => simp [FetchOutcome.requestFailed] at hf

/-- C8, instance: a network error with message "Failed to fetch". -/
theorem fetchLeagues_failure_witness :
    (fetchLeagues initialState (.rejected (str "Failed to fetch"))).state.error
        = some (str "Failed to fetch") ∧
    (fetchLeagues initialState (.rejected (str "Failed to fetch"))).state.loading = false ∧
    (fetchLeagues initialState (.rejected (str "Failed to fetch"))).state.leagues = [] :=
  ⟨fetchLeagues_failure.1 _,
   (fetchLeagues_failure.2.2 (.rejected (str "Failed to fetch")) rfl).1,
   (fetchLeagues_failure.2.2 (.rejected (str "Failed to fetch")) rfl).2.1⟩

/-- C9, as stated, fails: from the initial state a success response whose JSON object has no
`leagues` field ends with `error` still `null`, whereas a non-2xx response sets it. -/
theorem fetchLeagues_missing_field_counterexample :
    (fetchLeagues initialState noLeaguesField).state.error = none ∧
    (fetchLeagues initialState (.responded false (.ok { leagues := none }))).state.error
      = some (str "Failed to fetch leagues") := by
  decide

/-- C9, amended: with no cached catalog, a success response whose JSON object lacks the
`leagues` field (or has null there) is not a failure: one request is sent, `loading` is
cleared and every other state cell, `error` included, is unchanged; a success response whose
body does not parse is a failure: `error` is set to the parse error's message. -/
theorem fetchLeagues_success_body (st : AppState) (hmiss : st.cache.leagues = none) :
    fetchLeagues st noLeaguesField =
      { state := { st with loading := false }, requests := [Request.allLeagues] } ∧
    (fetchLeagues st noLeaguesField).state.error = st.error ∧
    ∀ message : JSString,
      fetchLeagues st (.responded true (.error message)) =
        { state := { st with error := some message, loading := false },
          requests := [Request.allLeagues] } := by
  refine ⟨?_, ?_, fun message => ?_⟩ <;>
    simp [fetchLeagues, hmiss, noLeaguesField, fetchLeaguesTry]

/-- C9 amended, at the initial state. -/
theorem fetchLeagues_success_body_witness :
    initialState.cache.leagues = none ∧
    (fetchLeagues initialState noLeaguesField).state.error = none ∧
    (fetchLeagues initialState noLeaguesField).state.loading = false ∧
    (fetchLeagues initialState
      (.responded true (.error (str "Unexpected token")))).state.error
        = some (str "Unexpected token") := by
  have h := fetchLeagues_success_body initialState rfl
  refine ⟨rfl, h.2.1, ?_, ?_⟩
  · rw [h.1]
  · rw [h.2.2]

/-! ## Theorems about `fetchBadgeImage` -/

/-- C3, as stated, fails: after a call that found no badge the cache holds the entry `null`
for the id, yet the next call with that id sends a request again; and after a failed call the
next call sends a request again.  Either way two calls make two requests. -/
theorem fetchBadgeImage_refetch_counterexample :
    (fetchBadgeImage initialState exampleId foundNone).state.cache.badges exampleId
      = some none ∧
    (fetchBadgeImage (fetchBadgeImage initialState exampleId foundNone).state
        exampleId foundNone).requests = [Request.searchAllSeasons exampleId] ∧
    (fetchBadgeImage initialState exampleId foundNone).requests.length +
      (fetchBadgeImage (fetchBadgeImage initialState exampleId foundNone).state
        exampleId foundNone).requests.length = 2 ∧
    (fetchBadgeImage initialState exampleId offline).requests.length +
      (fetchBadgeImage (fetchBadgeImage initialState exampleId offline).state
        exampleId offline).requests.length = 2 := by
  decide

/-- C3, amended: if the cache holds an image URL (a non-empty string) for the id,
`fetchBadgeImage` shows that URL and sends no request, leaving the cache unchanged; hence,
when a first call ended with a badge URL, a second call with the same id sends no request
and shows the same URL, so the two calls send at most one request; when the first call's
request failed, the second call sends a request again. -/
theorem fetchBadgeImage_cached_url (st : AppState) (leagueId : JSString)
    (net1 net2 : FetchOutcome BadgeBody) :
    (∀ url : JSString, st.cache.badges leagueId = some (some url) → url ≠ [] →
      (fetchBadgeImage st leagueId net1).requests = [] ∧
      (fetchBadgeImage st leagueId net1).state.badgeImage = some url ∧
      (fetchBadgeImage st leagueId net1).state.badgeLoading = false ∧
      (fetchBadgeImage st leagueId net1).state.cache = st.cache) ∧
    (∀ url : JSString, (fetchBadgeImage st leagueId net1).state.badgeImage = some url →
      (fetchBadgeImage (fetchBadgeImage st leagueId net1).state leagueId net2).requests = [] ∧
      (fetchBadgeImage (fetchBadgeImage st leagueId net1).state leagueId net2).state.badgeImage
        = some url ∧
      (fetchBadgeImage st leagueId net1).requests.length +
        (fetchBadgeImage (fetchBadgeImage st leagueId net1).state leagueId net2).requests.length
        ≤ 1) ∧
    (badgeTruthy (st.cache.badges leagueId) = false → net1.requestFailed = true →
      (fetchBadgeImage (fetchBadgeImage st leagueId net1).state leagueId net2).requests
        = [Request.searchAllSeasons leagueId]) := by
  have hhit : ∀ (st : AppState) (net : FetchOutcome BadgeBody) (url : JSString),
      st.cache.badges leagueId = some (some url) → url ≠ [] →
      (fetchBadgeImage st leagueId net).requests = [] ∧
      (fetchBadgeImage st leagueId net).state.badgeImage = some url ∧
      (fetchBadgeImage st leagueId net).state.badgeLoading = false ∧
      (fetchBadgeImage st leagueId net).state.cache = st.cache := by
    intro st net url hc hne
    have ht : badgeTruthy (st.cache.badges leagueId) = true := by
      rw [hc]; exact badgeTruthy_url url hne
    rw [fetchBadgeImage_hit st leagueId net ht]
    simp [hc]
  refine ⟨hhit st net1, ?_, ?_⟩
  · intro url hurl
    -- after the first call the cache holds the non-empty `url` under `leagueId`
    have key : (fetchBadgeImage st leagueId net1).state.cache.badges leagueId
          = some (some url) ∧ url ≠ [] ∧ (fetchBadgeImage st leagueId net1).requests.length ≤ 1 := by
      by_cases ht : badgeTruthy (st.cache.badges leagueId) = true
      · rw [fetchBadgeImage_hit st leagueId net1 ht] at hurl ⊢
        cases hc : st.cache.badges leagueId with
        | none => simp [hc, badgeTruthy] at ht
        | some v =>
          cases v with
          | none => simp [hc, badgeTruthy] at ht
          | some u =>
            simp only [hc, badgeTruthy, strTruthy_iff] at ht
            simp only [hc, Option.join] at hurl
            have hu : u = url := Option.some.inj hurl
            subst hu
            exact ⟨rfl, ht, by simp⟩
      · have hm : badgeTruthy (st.cache.badges leagueId) = false := by
          simpa using ht
        cases net1 with
        | rejected message =>
          rw [fetchBadgeImage_failed st leagueId (.rejected message) hm rfl] at hurl
          simp at hurl
        | responded ok body =>
          cases ok with
          | false =>
            rw [fetchBadgeImage_failed st leagueId (.responded false body) hm rfl] at hurl
            simp at hurl
          | true =>
            cases body with
            | error message =>
              simp [fetchBadgeImage, hm, fetchBadgeTry] at hurl
            | ok data =>
              rw [fetchBadgeImage_ok st leagueId data hm] at hurl ⊢
              simp only at hurl
              refine ⟨?_, selectBadgeUrl_truthy data url hurl, by simp⟩
              simp [setBadge, hurl]
    obtain ⟨h1, h2, h3, _⟩ := hhit (fetchBadgeImage st leagueId net1).state net2 url key.1 key.2.1
    refine ⟨h1, h2, ?_⟩
    rw [h1]
    simpa using key.2.2
  · intro hm hf
    rw [fetchBadgeImage_failed st leagueId net1 hm hf]
    cases net2 with
    | rejected message => simp [fetchBadgeImage, hm, fetchBadgeTry]
    | responded ok body =>
      cases ok with
      | false => simp [fetchBadgeImage, hm, fetchBadgeTry]
      | true =>
        cases body with
        | error message => simp [fetchBadgeImage, hm, fetchBadgeTry]
        | ok data => simp [fetchBadgeImage, hm, fetchBadgeTry]

/-- C3 amended, on a run: from the initial state the first call finds "url2", the second
call with the same id sends no request and shows "url2" again. -/
theorem fetchBadgeImage_cached_url_witness :
    (fetchBadgeImage initialState exampleId
      (.responded true (.ok exampleBadgeBody))).state.badgeImage = some (str "url2") ∧
    (fetchBadgeImage (fetchBadgeImage initialState exampleId
      (.responded true (.ok exampleBadgeBody))).state exampleId offline).requests = [] ∧
    (fetchBadgeImage (fetchBadgeImage initialState exampleId
      (.responded true (.ok exampleBadgeBody))).state exampleId offline).state.badgeImage
        = some (str "url2") ∧
    (fetchBadgeImage (fetchBadgeImage initialState exampleId offline).state
      exampleId offline).requests = [Request.searchAllSeasons exampleId] :=
  ⟨rfl,
   ((fetchBadgeImage_cached_url initialState exampleId
      (.responded true (.ok exampleBadgeBody)) offline).2.1 (str "url2") rfl).1,
   ((fetchBadgeImage_cached_url initialState exampleId
      (.responded true (.ok exampleBadgeBody)) offline).2.1 (str "url2") rfl).2.1,
   (fetchBadgeImage_cached_url initialState exampleId offline offline).2.2 rfl rfl⟩

/-- C4: when the request is sent and the response is successful, `fetchBadgeImage` shows the
`strBadge` of the first season record (in response order) whose `strBadge` is a non-empty
string, or `null` when `seasons` is missing, empty or has no such record; it stores exactly
that result in the cache under the id and leaves every other badge entry and the cached
catalog unchanged. -/
theorem fetchBadgeImage_success (st : AppState) (leagueId : JSString) (data : BadgeBody)
    (hmiss : badgeTruthy (st.cache.badges leagueId) = false) :
    (∀ (pre post : List Season) (season : Season) (url : JSString),
      data.seasons = some (pre ++ season :: post) → (∀ y ∈ pre, y.noBadge) →
      season.strBadge = some url → url ≠ [] →
      (fetchBadgeImage st leagueId (.responded true (.ok data))).state.badgeImage = some url) ∧
    ((data.seasons = none ∨ data.seasons = some [] ∨
        ∃ seasons, data.seasons = some seasons ∧ ∀ y ∈ seasons, y.noBadge) →
      (fetchBadgeImage st leagueId (.responded true (.ok data))).state.badgeImage = none) ∧
    (fetchBadgeImage st leagueId (.responded true (.ok data))).state.cache.badges leagueId
      = some (fetchBadgeImage st leagueId (.responded true (.ok data))).state.badgeImage ∧
    (∀ k : JSString, k ≠ leagueId →
      (fetchBadgeImage st leagueId (.responded true (.ok data))).state.cache.badges k
        = st.cache.badges k) ∧
    (fetchBadgeImage st leagueId (.responded true (.ok data))).state.cache.leagues
      = st.cache.leagues ∧
    (fetchBadgeImage st leagueId (.responded true (.ok data))).state.badgeLoading = false ∧
    (fetchBadgeImage st leagueId (.responded true (.ok data))).requests
      = [Request.searchAllSeasons leagueId] := by
  rw [fetchBadgeImage_ok st leagueId data hmiss]
  refine ⟨?_, ?_, ?_, ?_, rfl, rfl, rfl⟩
  · intro pre post season url hs hpre hb hne
    have hhas : seasonHasBadge season = true := by
      unfold seasonHasBadge
      rw [hb]
      exact (strTruthy_iff url).mpr hne
    show selectBadgeUrl data = some url
    unfold selectBadgeUrl
    rw [hs]
    simp only [find_seasonHasBadge_first pre post season hpre hhas]
    simp [hb]
  · intro h
    show selectBadgeUrl data = none
    unfold selectBadgeUrl
    rcases h with h | h | ⟨seasons, h, hall⟩
    · rw [h]
    · rw [h]; rfl
    · rw [h]
      simp only [find_seasonHasBadge_none seasons hall]
      simp
  · simp [setBadge]
  · intro k hk
    simp [setBadge, hk]

/-- C4 on the spec's example: seasons `[{strBadge:null},{strBadge:"url2"}]` give "url2",
which is also what the cache then holds for the id. -/
theorem fetchBadgeImage_success_witness :
    badgeTruthy (initialState.cache.badges exampleId) = false ∧
    (fetchBadgeImage initialState exampleId
      (.responded true (.ok exampleBadgeBody))).state.badgeImage = some (str "url2") ∧
    (fetchBadgeImage initialState exampleId
      (.responded true (.ok exampleBadgeBody))).state.cache.badges exampleId
        = some (fetchBadgeImage initialState exampleId
            (.responded true (.ok exampleBadgeBody))).state.badgeImage :=
  ⟨rfl,
   (fetchBadgeImage_success initialState exampleId exampleBadgeBody rfl).1
     [{ strSeason := str "2001", strBadge := none }] []
     { strSeason := str "2002", strBadge := some (str "url2") } (str "url2") rfl
     (by intro y hy; rw [List.mem_singleton] at hy; subst hy; exact Or.inl rfl) rfl (by decide),
   (fetchBadgeImage_success initialState exampleId exampleBadgeBody rfl).2.2.1⟩

/-- C10: when the badge request is sent and fails (network error or non-success response),
the shown badge is `null`, `badgeLoading` is cleared, `error`, the catalog and the filtered
list are unchanged, and the cache is unchanged (so it holds no entry for the failure). -/
theorem fetchBadgeImage_request_failed (st : AppState) (leagueId : JSString)
    (net : FetchOutcome BadgeBody)
    (hmiss : badgeTruthy (st.cache.badges leagueId) = false)
    (hfail : net.requestFailed = true) :
    (fetchBadgeImage st leagueId net).state.badgeImage = none ∧
    (fetchBadgeImage st leagueId net).state.badgeLoading = false ∧
    (fetchBadgeImage st leagueId net).state.error = st.error ∧
    (fetchBadgeImage st leagueId net).state.leagues = st.leagues ∧
    (fetchBadgeImage st leagueId net).state.filteredLeagues = st.filteredLeagues ∧
    (fetchBadgeImage st leagueId net).state.cache = st.cache ∧
    (fetchBadgeImage st leagueId net).requests = [Request.searchAllSeasons leagueId] := by
  rw [fetchBadgeImage_failed st leagueId net hmiss hfail]
  exact ⟨rfl, rfl, rfl, rfl, rfl, rfl, rfl⟩

/-- C10 at the initial state, for a network error and for a non-success response. -/
theorem fetchBadgeImage_request_failed_witness :
    badgeTruthy (initialState.cache.badges exampleId) = false ∧
    offline.requestFailed = true ∧
    (fetchBadgeImage initialState exampleId offline).state.badgeImage = none ∧
    (fetchBadgeImage initialState exampleId offline).state.error = none ∧
    (fetchBadgeImage initialState exampleId
      (.responded false (.ok exampleBadgeBody))).state.cache = initialState.cache :=
  ⟨rfl, rfl,
   (fetchBadgeImage_request_failed initialState exampleId offline rfl rfl).1,
   (fetchBadgeImage_request_failed initialState exampleId offline rfl rfl).2.2.1,
   (fetchBadgeImage_request_failed initialState exampleId
     (.responded false (.ok exampleBadgeBody)) rfl rfl).2.2.2.2.2.1⟩

end SportsLeague
